import Mathlib

/-!
Shallow embedding of the data-consistency core of the Linux-Support Q&A forum
server: the Drizzle/Postgres storage layer (`server/storage.ts`, class
`DatabaseStorage`) and the Express route handlers (`server/routes.ts`).

Tables become Lean structures, the database becomes a record of lists of rows,
and each storage method or route handler becomes a pure state-transforming
function.  Timestamps are integers (milliseconds), SQL integers are `Int`.
-/

namespace LinuxSupport

/-- The `user_role` postgres enum: owner, admin, moderator, member. -/
inductive Role where
  | owner | admin | moderator | member
deriving DecidableEq, Repr

/-- The roles admitted by `updateUserRoleSchema = z.object(role: z.enum(["admin", "moderator", "member"]))`:
the parse rejects the string "owner", so a parsed request can only carry these three. -/
inductive AssignableRole where
  | admin | moderator | member
deriving DecidableEq, Repr

/-- Injection of a parsed assignable role back into the role enum stored on the user row. -/
def AssignableRole.toRole : AssignableRole → Role
  | .admin => .admin
  | .moderator => .moderator
  | .member => .member

/-- Rank of a role in the total order owner > admin > moderator > member (spec section 4.2). -/
def roleRank : Role → Nat
  | .member => 0
  | .moderator => 1
  | .admin => 2
  | .owner => 3

/-- Row of the `users` table.  The columns id, username, password, displayName,
role, createdAt appear in the schema snapshot in the sources; the karma and
email columns are referenced by `DatabaseStorage.addKarma`, `getUserProfile`
and `updateUserEmail`.  Modelled from the spec: `karma` is a signed integer
floored at 0 and `email` is optional, as the final schema file is not among
the sources. -/
structure User where
  id : String
  username : String
  password : String
  displayName : Option String
  email : Option String
  role : Role
  karma : Int
  createdAt : Int
deriving DecidableEq, Repr

/-- Row of the `categories` table. -/
structure Category where
  id : String
  name : String
  slug : String
  description : Option String
  icon : String
  color : String
deriving DecidableEq, Repr

/-- Row of the `questions` table. -/
structure Question where
  id : String
  title : String
  content : String
  categoryId : String
  authorName : String
  userId : Option String
  votes : Int
  viewCount : Int
  answerCount : Int
  isPinned : Bool
  createdAt : Int
  imageUrl : Option String
  videoUrl : Option String
  codeSnippet : Option String
  codeLanguage : Option String
deriving DecidableEq, Repr

/-- Row of the `answers` table. -/
structure Answer where
  id : String
  questionId : String
  content : String
  authorName : String
  userId : Option String
  votes : Int
  isAccepted : Bool
  createdAt : Int
  imageUrl : Option String
  videoUrl : Option String
  codeSnippet : Option String
  codeLanguage : Option String
deriving DecidableEq, Repr

/-- Row of the `password_reset_tokens` table: (id, userId, token, expiresAt,
usedAt nullable, createdAt).  The table is used by
`DatabaseStorage.createPasswordResetToken` / `getPasswordResetToken` /
`usePasswordResetToken`; the column list follows those queries and spec
section 3 since the final schema file is not among the sources. -/
structure ResetToken where
  id : String
  userId : String
  token : String
  expiresAt : Int
  usedAt : Option Int
  createdAt : Int
deriving DecidableEq, Repr

/-- The database state: one list of rows per table touched by the claims. -/
structure DB where
  users : List User
  categories : List Category
  questions : List Question
  answers : List Answer
  tokens : List ResetToken
deriving Repr

/-- The `KARMA_REWARDS` policy constants imported by `routes.ts` from the
shared schema.  Modelled from the spec: the point values are fixed signed
policy constants (spec section 4.3); the file defining the concrete numbers is
not among the sources, so operations take the record as a parameter. -/
structure KarmaRewards where
  askQuestion : Int
  postAnswer : Int
  questionUpvoted : Int
  questionDownvoted : Int
  answerUpvoted : Int
  answerDownvoted : Int
  answerAccepted : Int
deriving Repr

/-- Stand-in for `bcrypt.hash(pw, SALT_ROUNDS)`: an injective tagging of the
plaintext, standing for the salted one-way hash (the hash itself is an
external library call). -/
def bcryptHash (pw : String) : String :=
  String.append "bcrypt12$" pw

/-! ## Storage operations (`DatabaseStorage`) -/

/-- `getUser`: SELECT * FROM users WHERE id = id, first row. -/
def getUser (db : DB) (id : String) : Option User :=
  db.users.find? (fun u => u.id == id)

/-- `getUserByUsername`: SELECT * FROM users WHERE username = username, first row. -/
def getUserByUsername (db : DB) (username : String) : Option User :=
  db.users.find? (fun u => u.username == username)

/-- `updateUserRole`: UPDATE users SET role WHERE id = id. -/
def updateUserRole (db : DB) (id : String) (role : Role) : DB :=
  { db with users := db.users.map (fun u => if u.id == id then { u with role := role } else u) }

/-- `addKarma`: UPDATE users SET karma = GREATEST(0, karma + amount) WHERE id = userId. -/
def addKarma (db : DB) (userId : String) (amount : Int) : DB :=
  { db with users := db.users.map (fun u =>
      if u.id == userId then { u with karma := max 0 (u.karma + amount) } else u) }

/-- `updateQuestionVotes`: increment = (direction = up ? 1 : -1);
UPDATE questions SET votes = votes + increment WHERE id = id. -/
def updateQuestionVotes (db : DB) (id : String) (up : Bool) : DB :=
  { db with questions := db.questions.map (fun q =>
      if q.id == id then { q with votes := q.votes + (if up then 1 else -1) } else q) }

/-- `updateAnswerVotes`: increment = (direction = up ? 1 : -1);
UPDATE answers SET votes = votes + increment WHERE id = id. -/
def updateAnswerVotes (db : DB) (id : String) (up : Bool) : DB :=
  { db with answers := db.answers.map (fun a =>
      if a.id == id then { a with votes := a.votes + (if up then 1 else -1) } else a) }

/-- `acceptAnswer`: first UPDATE answers SET isAccepted = false WHERE questionId = questionId,
then UPDATE answers SET isAccepted = true WHERE id = id. -/
def acceptAnswer (db : DB) (id : String) (questionId : String) : DB :=
  let cleared := db.answers.map (fun a =>
    if a.questionId == questionId then { a with isAccepted := false } else a)
  { db with answers := cleared.map (fun a =>
      if a.id == id then { a with isAccepted := true } else a) }

/-! ## Generic list helpers -/

/-- If a map does not change the truth of the search predicate, it commutes with find?. -/
theorem find?_map_pres {α : Type} (f : α → α) (p : α → Bool)
    (h : ∀ a, p (f a) = p a) (l : List α) :
    (l.map f).find? p = (l.find? p).map f := by
  induction l with
  | nil => rfl
  | cons a t ih =>
    by_cases hp : p a = true
    · simp [List.find?, h, hp]
    · simp [List.find?, h, hp, ih]

/-- Body accepted by `insertAnswerSchema` (id, votes, isAccepted, createdAt, userId omitted). -/
structure InsertAnswer where
  questionId : String
  content : String
  authorName : String
  imageUrl : Option String
  videoUrl : Option String
  codeSnippet : Option String
  codeLanguage : Option String
deriving DecidableEq, Repr

/-- `createAnswer`: INSERT INTO answers VALUES (answer) RETURNING (database generates
the id and the defaults votes = 0, isAccepted = false, createdAt = now()), then
UPDATE questions SET answerCount = answerCount + 1 WHERE id = answer.questionId.
The generated id and clock are passed in as `genId` and `now`. -/
def createAnswer (db : DB) (ia : InsertAnswer) (userId : Option String)
    (genId : String) (now : Int) : Answer × DB :=
  let a : Answer :=
    { id := genId, questionId := ia.questionId, content := ia.content,
      authorName := ia.authorName, userId := userId, votes := 0, isAccepted := false,
      createdAt := now, imageUrl := ia.imageUrl, videoUrl := ia.videoUrl,
      codeSnippet := ia.codeSnippet, codeLanguage := ia.codeLanguage }
  (a, { db with
        answers := db.answers ++ [a],
        questions := db.questions.map (fun q =>
          if q.id == ia.questionId then { q with answerCount := q.answerCount + 1 } else q) })

/-- `deleteAnswer`: SELECT first answer WHERE id = id; if present, DELETE FROM answers
WHERE id = id, then UPDATE questions SET answerCount = answerCount - 1
WHERE id = answer.questionId (no clamping). -/
def deleteAnswer (db : DB) (id : String) : DB :=
  match db.answers.find? (fun a => a.id == id) with
  | none => db
  | some a =>
    { db with
      answers := db.answers.filter (fun b => !(b.id == id)),
      questions := db.questions.map (fun q =>
        if q.id == a.questionId then { q with answerCount := q.answerCount - 1 } else q) }

/-- Plain row lookup in the questions table (first row with the given id);
statement-level accessor used to phrase the theorems. -/
def questionRow (db : DB) (id : String) : Option Question :=
  db.questions.find? (fun q => q.id == id)

/-- Number of accepted answers of question `q` in the database;
statement-level accessor used to phrase the theorems. -/
def countAccepted (db : DB) (q : String) : Nat :=
  db.answers.countP (fun a => a.questionId == q && a.isAccepted)

/-! ## Claim C2: karma never negative -/

/-- C2. For every user and every sequence of addKarma calls with deltas of any
sign and magnitude, the karma of every user that started non-negative remains
non-negative; moreover each single call rewrites the targeted karma to exactly
max(0, karma + delta).  A call sequence is a fold of `addKarma` over a list of
(userId, delta) pairs. -/
theorem addKarma_karma_nonneg (db : DB) (calls : List (String × Int))
    (h0 : ∀ u ∈ db.users, 0 ≤ u.karma) :
    (∀ u ∈ (calls.foldl (fun d c => addKarma d c.1 c.2) db).users, 0 ≤ u.karma) ∧
    (∀ (d : DB) (uid : String) (δ : Int),
      getUser (addKarma d uid δ) uid =
        (getUser d uid).map (fun u => { u with karma := max 0 (u.karma + δ) })) := by
  constructor
  · induction calls generalizing db with
    | nil => simpa using h0
    | cons c rest ih =>
      intro u hu
      refine ih (addKarma db c.1 c.2) ?_ u hu
      intro v hv
      simp only [addKarma, List.mem_map] at hv
      obtain ⟨w, hw, hvw⟩ := hv
      by_cases hcase : (w.id == c.1) = true
      · simp [hcase] at hvw
        subst hvw
        exact le_max_left _ _
      · simp [hcase] at hvw
        subst hvw
        exact h0 w hw
  · intro d uid δ
    show (d.users.map _).find? _ = _
    rw [find?_map_pres]
    · simp only [getUser]
      cases hfind : d.users.find? (fun u => u.id == uid) with
      | none => simp
      | some u =>
        have hpu := List.find?_some hfind
        rw [beq_iff_eq] at hpu
        simp [hfind, hpu]
    · intro a
      by_cases hcase : (a.id == uid) = true <;> simp [hcase]

/-- Witness for C2: the concrete user, a member of the database obtained by
hitting karma 0 with the deltas -1000, +3, -999999, still has non-negative
karma. -/
theorem addKarma_karma_nonneg_witness :
    0 ≤ ({ id := "u1", username := "alice", password := "h", displayName := none,
           email := none, role := .member, karma := 0, createdAt := 0 } : User).karma :=
  (addKarma_karma_nonneg
    { users := [{ id := "u1", username := "alice", password := "h", displayName := none,
                  email := none, role := .member, karma := 0, createdAt := 0 }],
      categories := [], questions := [], answers := [], tokens := [] }
    [("u1", (-1000 : Int)), ("u1", 3), ("u1", -999999)]
    (by intro u hu; simp at hu; subst hu; simp)).1
    { id := "u1", username := "alice", password := "h", displayName := none,
      email := none, role := .member, karma := 0, createdAt := 0 }
    (by decide)

/-- find? over a list updated only at the rows matching the search predicate. -/
theorem find?_cond_map {α : Type} (p : α → Bool) (f : α → α)
    (hpres : ∀ a, p (f a) = p a) (l : List α) :
    (l.map (fun a => if p a then f a else a)).find? p = (l.find? p).map f := by
  rw [find?_map_pres]
  · cases hfind : l.find? p with
    | none => simp
    | some x =>
      have hx := List.find?_some hfind
      simp [hx]
  · intro a
    by_cases hp : p a = true <;> simp [hp, hpres]

/-! ## Claim C8: createAnswer / deleteAnswer and answerCount -/

/-- C8. Creating an answer on a question and then deleting that answer restores
the whole database (in particular the answerCount of the question returns to
its pre-create value); creating an answer increments the answerCount of its
question by exactly one; deleting an existing answer decrements the
answerCount of its question by exactly one, as plain integer subtraction with
no clamping at zero. -/
theorem createAnswer_deleteAnswer_answerCount (db : DB) (ia : InsertAnswer)
    (userId : Option String) (genId : String) (now : Int)
    (hfresh : ∀ b ∈ db.answers, ¬ b.id = genId) :
    deleteAnswer (createAnswer db ia userId genId now).2 genId = db ∧
    questionRow (createAnswer db ia userId genId now).2 ia.questionId =
      (questionRow db ia.questionId).map
        (fun q => { q with answerCount := q.answerCount + 1 }) ∧
    (∀ (d : DB) (a : Answer), d.answers.find? (fun b => b.id == a.id) = some a →
      questionRow (deleteAnswer d a.id) a.questionId =
        (questionRow d a.questionId).map
          (fun q => { q with answerCount := q.answerCount - 1 })) := by
  refine ⟨?_, ?_, ?_⟩
  · simp only [createAnswer, deleteAnswer]
    have hnone : db.answers.find? (fun b => b.id == genId) = none := by
      rw [List.find?_eq_none]
      intro b hb
      simpa using hfresh b hb
    have hfilter : db.answers.filter (fun b => !(b.id == genId)) = db.answers := by
      rw [List.filter_eq_self]
      intro b hb
      simpa using hfresh b hb
    have hq : ∀ q ∈ db.questions,
        ((fun q : Question =>
            if q.id = ia.questionId then { q with answerCount := q.answerCount - 1 } else q) ∘
          (fun q : Question =>
            if q.id = ia.questionId then { q with answerCount := q.answerCount + 1 } else q)) q = q := by
      intro q _
      rcases q with ⟨f1, f2, f3, f4, f5, f6, f7, f8, f9, f10, f11, f12, f13, f14, f15⟩
      by_cases hc : f1 = ia.questionId
      · simp [hc]
      · simp [hc]
    rw [List.find?_append, hnone]
    simp [hfilter, List.map_map, List.map_congr_left hq]
  · simp only [createAnswer, questionRow]
    exact find?_cond_map (fun q => q.id == ia.questionId)
      (fun q => { q with answerCount := q.answerCount + 1 }) (fun q => by simp) db.questions
  · intro d a hfind
    simp only [deleteAnswer, hfind, questionRow]
    exact find?_cond_map (fun q => q.id == a.questionId)
      (fun q => { q with answerCount := q.answerCount - 1 }) (fun q => by simp) d.questions

/-- A sample question row used by the concrete witnesses. -/
def sampleQ : Question :=
  { id := "q1", title := "t", content := "c", categoryId := "c1",
    authorName := "alice", userId := none, votes := 0, viewCount := 0,
    answerCount := 0, isPinned := false, createdAt := 0, imageUrl := none,
    videoUrl := none, codeSnippet := none, codeLanguage := none }

/-- A sample one-question database used by the concrete witnesses. -/
def sampleDB1 : DB :=
  { users := [], categories := [], questions := [sampleQ], answers := [], tokens := [] }

/-- A sample answer-creation body used by the concrete witnesses. -/
def sampleIA : InsertAnswer :=
  { questionId := "q1", content := "an answer", authorName := "bob",
    imageUrl := none, videoUrl := none, codeSnippet := none, codeLanguage := none }

/-- Witness for C8: on a concrete one-question database, create-then-delete of
an answer restores the state exactly. -/
theorem createAnswer_deleteAnswer_answerCount_witness :
    deleteAnswer (createAnswer sampleDB1 sampleIA none "a1" 5).2 "a1" = sampleDB1 :=
  (createAnswer_deleteAnswer_answerCount sampleDB1 sampleIA none "a1" 5
    (by intro b hb; simp [sampleDB1] at hb)).1

/-! ## Claim C1: at most one accepted answer per question -/

/-- In a table whose ids are pairwise distinct, at most one row matches a given id. -/
theorem countP_answer_id_le_one (l : List Answer) (i : String)
    (h : (l.map (fun a => a.id)).Nodup) :
    l.countP (fun a => a.id == i) ≤ 1 := by
  have h1 : l.countP (fun a => a.id == i) = (l.map (fun a => a.id)).countP (fun s => s == i) := by
    rw [List.countP_map]
    rfl
  rw [h1]
  have h2 := List.nodup_iff_count_le_one.mp h i
  simpa [List.count] using h2

/-- acceptAnswer never changes the id column of the answers table. -/
theorem acceptAnswer_ids (d : DB) (i qi : String) :
    (acceptAnswer d i qi).answers.map (fun a => a.id) = d.answers.map (fun a => a.id) := by
  simp only [acceptAnswer, List.map_map]
  apply List.map_congr_left
  intro b _
  by_cases h1 : b.questionId = qi <;> by_cases h2 : b.id = i <;> simp [h1, h2]

/-- Every row of the answers table after acceptAnswer descends from a row of the
old table with the same id and questionId. -/
theorem mem_acceptAnswer_answers (d : DB) (i qi : String) (a : Answer)
    (ha : a ∈ (acceptAnswer d i qi).answers) :
    ∃ b ∈ d.answers, a.id = b.id ∧ a.questionId = b.questionId := by
  simp only [acceptAnswer, List.mem_map] at ha
  obtain ⟨x, ⟨b, hb, rfl⟩, rfl⟩ := ha
  refine ⟨b, hb, ?_, ?_⟩ <;>
    by_cases h1 : b.questionId = qi <;> by_cases h2 : b.id = i <;> simp [h1, h2]

/-- One coherent acceptAnswer call (the chosen answer, if stored, belongs to the
given question) leaves every question with at most one accepted answer. -/
theorem countAccepted_acceptAnswer_le_one (d : DB) (i qi : String)
    (hids : (d.answers.map (fun a => a.id)).Nodup)
    (hco : ∀ a ∈ d.answers, a.id = i → a.questionId = qi)
    (hinv : ∀ q, countAccepted d q ≤ 1) (q : String) :
    countAccepted (acceptAnswer d i qi) q ≤ 1 := by
  unfold countAccepted acceptAnswer
  simp only [List.countP_map]
  by_cases hq : q = qi
  · subst hq
    refine le_trans (List.countP_mono_left ?_) (countP_answer_id_le_one d.answers i hids)
    intro a _ hpa
    by_cases h2 : a.id = i
    · simp [h2]
    · exfalso
      by_cases h1 : a.questionId = q <;> simp [Function.comp, h1, h2] at hpa
  · have heq : ∀ a ∈ d.answers,
        ((((fun a => a.questionId == q && a.isAccepted) ∘
          (fun a : Answer => if a.id == i then { a with isAccepted := true } else a)) ∘
           (fun a : Answer => if a.questionId == qi then { a with isAccepted := false } else a)) a)
          = (a.questionId == q && a.isAccepted) := by
      intro a ha
      by_cases h2 : a.id = i
      · have h3 := hco a ha h2
        simp [Function.comp, h2, h3, hq, Ne.symm hq]
      · by_cases h1 : a.questionId = qi
        · simp [Function.comp, h1, h2, hq, Ne.symm hq]
        · simp [Function.comp, h1, h2]
    calc List.countP _ d.answers
        = d.answers.countP (fun a => a.questionId == q && a.isAccepted) :=
          List.countP_congr (fun a ha => by rw [heq a ha])
      _ ≤ 1 := hinv q

/-- C1. Starting from a database whose answer ids are pairwise distinct and in
which every question has at most one accepted answer, any sequence of
acceptAnswer calls each naming an answer of the question it targets keeps
every question at no more than one accepted answer; moreover a single
acceptAnswer call leaves an answer of the targeted question accepted exactly
when it is the chosen one: isAccepted is cleared on every answer of the
question and then set on the chosen answer. -/
theorem acceptAnswer_at_most_one_accepted (db : DB) (calls : List (String × String))
    (hids : (db.answers.map (fun a => a.id)).Nodup)
    (hco : ∀ c ∈ calls, ∀ a ∈ db.answers, a.id = c.1 → a.questionId = c.2)
    (hinv : ∀ q, countAccepted db q ≤ 1) :
    (∀ q, countAccepted (calls.foldl (fun d c => acceptAnswer d c.1 c.2) db) q ≤ 1) ∧
    (∀ (d : DB) (i qi : String), ∀ a ∈ (acceptAnswer d i qi).answers,
      a.questionId = qi → a.isAccepted = (a.id == i)) := by
  constructor
  · induction calls generalizing db with
    | nil => simpa using hinv
    | cons c rest ih =>
      have hstep : ∀ q, countAccepted (acceptAnswer db c.1 c.2) q ≤ 1 :=
        countAccepted_acceptAnswer_le_one db c.1 c.2 hids
          (hco c (List.mem_cons_self c rest)) hinv
      refine ih (acceptAnswer db c.1 c.2) ?_ ?_ hstep
      · rw [acceptAnswer_ids]
        exact hids
      · intro cc hcc a ha hid
        obtain ⟨b, hb, hbid, hbqid⟩ := mem_acceptAnswer_answers db c.1 c.2 a ha
        rw [hbqid]
        exact hco cc (List.mem_cons_of_mem _ hcc) b hb (by rw [← hbid]; exact hid)
  · intro d i qi a ha hqi
    simp only [acceptAnswer, List.mem_map] at ha
    obtain ⟨x, ⟨b, hb, rfl⟩, rfl⟩ := ha
    by_cases h1 : b.questionId = qi <;> by_cases h2 : b.id = i <;>
      simp_all

/-- Witness for C1: accepting first one answer, then the other, on a concrete
two-answer question ends with at most one accepted answer on that question. -/
theorem acceptAnswer_at_most_one_accepted_witness :
    countAccepted (([("a1", "q1"), ("a2", "q1")] : List (String × String)).foldl
      (fun d c => acceptAnswer d c.1 c.2)
      { users := [], categories := [], questions := [sampleQ],
        answers :=
          [{ id := "a1", questionId := "q1", content := "x", authorName := "bob",
             userId := none, votes := 0, isAccepted := false, createdAt := 0,
             imageUrl := none, videoUrl := none, codeSnippet := none, codeLanguage := none },
           { id := "a2", questionId := "q1", content := "y", authorName := "carol",
             userId := none, votes := 0, isAccepted := false, createdAt := 0,
             imageUrl := none, videoUrl := none, codeSnippet := none, codeLanguage := none }],
        tokens := [] }) "q1" ≤ 1 :=
  (acceptAnswer_at_most_one_accepted _ [("a1", "q1"), ("a2", "q1")]
    (by simp)
    (by
      intro c hc a ha hid
      simp at hc ha
      rcases hc with hc | hc <;> rcases ha with ha | ha <;> subst ha <;> simp_all)
    (by intro q; simp [countAccepted, List.countP, List.countP.go])).1 "q1"

/-! ## Route layer -/

/-- Outcome of a route handler, by HTTP status: ok/created (2xx success),
badRequest (400 validation), unauthorized (401), forbidden (403),
notFound (404), internalError (500: a storage-level throw reaching the
handler's catch). -/
inductive ApiResult where
  | ok | created | badRequest | unauthorized | forbidden | notFound | internalError
deriving DecidableEq, Repr

/-- Handler of PATCH /api/admin/users/:id/role, composed with its
requireRole("owner", "admin") middleware.  The actor is the authenticated
user's role (none = no session, which requireRole answers with 401); the body
has already passed `updateUserRoleSchema`, so it carries an `AssignableRole`.
Checks in source order: requireRole; target user lookup (404); target is
owner (403); promote-to-admin by non-owner (403); demote-an-admin by
non-owner (403); otherwise updateUserRole runs. -/
def roleChangeRoute (db : DB) (actor : Option Role) (targetId : String)
    (newRole : AssignableRole) : ApiResult × DB :=
  match actor with
  | none => (.unauthorized, db)
  | some ar =>
    if ¬ (ar = .owner ∨ ar = .admin) then (.forbidden, db)
    else
      match getUser db targetId with
      | none => (.notFound, db)
      | some tu =>
        if tu.role = .owner then (.forbidden, db)
        else if newRole = .admin ∧ ¬ ar = .owner then (.forbidden, db)
        else if tu.role = .admin ∧ ¬ ar = .owner then (.forbidden, db)
        else (.ok, updateUserRole db targetId newRole.toRole)

/-! ## Claim C4: role-change authorization -/

/-- C4. For the role-change route with an authenticated actor: a successful
request only ever assigns a role strictly below the actor's own (in the order
owner > admin > moderator > member, which in particular lets owner assign
admin); any request targeting an existing user whose role is owner fails with
Forbidden; a non-owner actor assigning admin to an existing target fails with
Forbidden; a non-owner actor retargeting an existing admin fails with
Forbidden; and every non-successful outcome leaves the database unchanged. -/
theorem roleChangeRoute_policy (db : DB) (ar : Role) (targetId : String)
    (newRole : AssignableRole) :
    ((roleChangeRoute db (some ar) targetId newRole).1 = .ok →
      roleRank newRole.toRole < roleRank ar) ∧
    (∀ tu, getUser db targetId = some tu → tu.role = .owner →
      roleChangeRoute db (some ar) targetId newRole = (.forbidden, db)) ∧
    (∀ tu, getUser db targetId = some tu → newRole = .admin → ¬ ar = .owner →
      roleChangeRoute db (some ar) targetId newRole = (.forbidden, db)) ∧
    (∀ tu, getUser db targetId = some tu → tu.role = .admin → ¬ ar = .owner →
      roleChangeRoute db (some ar) targetId newRole = (.forbidden, db)) ∧
    (¬ (roleChangeRoute db (some ar) targetId newRole).1 = .ok →
      (roleChangeRoute db (some ar) targetId newRole).2 = db) := by
  refine ⟨?_, ?_, ?_, ?_, ?_⟩
  · intro hok
    cases htu : getUser db targetId with
    | none => rcases ar with _ | _ | _ | _ <;> simp_all [roleChangeRoute]
    | some tu =>
      rcases ar with _ | _ | _ | _ <;> rcases newRole with _ | _ | _ <;>
        rcases htr : tu.role with _ | _ | _ | _ <;>
          simp_all [roleChangeRoute, AssignableRole.toRole, roleRank]
  · intro tu htu hrole
    rcases ar with _ | _ | _ | _ <;>
      simp_all [roleChangeRoute]
  · intro tu htu hnew har
    subst hnew
    rcases ar with _ | _ | _ | _ <;> rcases htr : tu.role with _ | _ | _ | _ <;>
      simp_all [roleChangeRoute]
  · intro tu htu hrole har
    rcases ar with _ | _ | _ | _ <;> rcases newRole with _ | _ | _ <;>
      simp_all [roleChangeRoute]
  · intro hne
    cases htu : getUser db targetId with
    | none =>
      rcases ar with _ | _ | _ | _ <;> simp_all [roleChangeRoute]
    | some tu =>
      rcases ar with _ | _ | _ | _ <;> rcases newRole with _ | _ | _ <;>
        rcases htr : tu.role with _ | _ | _ | _ <;>
          simp_all [roleChangeRoute]

/-- A sample user row used by the concrete witnesses. -/
def sampleUser (uid : String) (r : Role) : User :=
  { id := uid, username := uid, password := "h", displayName := none,
    email := none, role := r, karma := 0, createdAt := 0 }

/-- Witness for C4: an admin retargeting another admin on a concrete database
is rejected with Forbidden and nothing is mutated. -/
theorem roleChangeRoute_policy_witness :
    roleChangeRoute
      { users := [sampleUser "u2" .admin], categories := [], questions := [],
        answers := [], tokens := [] }
      (some .admin) "u2" .member =
    (.forbidden,
      { users := [sampleUser "u2" .admin], categories := [], questions := [],
        answers := [], tokens := [] }) :=
  (roleChangeRoute_policy
    { users := [sampleUser "u2" .admin], categories := [], questions := [],
      answers := [], tokens := [] }
    .admin "u2" .member).2.2.2.1 (sampleUser "u2" .admin)
    (by simp [getUser, sampleUser, List.find?])
    (by simp [sampleUser])
    (by simp)

/-! ## Claim C3: createQuestion validation and defaults -/

/-- Raw JSON body fields read by insertQuestionSchema; a field that is missing
or null in the request body is `none`. -/
structure RawQuestionInput where
  title : Option String
  content : Option String
  categoryId : Option String
  authorName : Option String
  imageUrl : Option String
  videoUrl : Option String
  codeSnippet : Option String
  codeLanguage : Option String
deriving DecidableEq, Repr

/-- Parsed output of insertQuestionSchema. -/
structure InsertQuestion where
  title : String
  content : String
  categoryId : String
  authorName : String
  imageUrl : Option String
  videoUrl : Option String
  codeSnippet : Option String
  codeLanguage : Option String
deriving DecidableEq, Repr

/-- `insertQuestionSchema = createInsertSchema(questions).omit(id, votes,
viewCount, answerCount, isPinned, createdAt, userId)`: the four notNull text
columns (title, content, categoryId, authorName) parse as required strings
with no further refinement, the nullable media columns as optional strings;
the parse raises ZodError (answered with 400) exactly when a required column
is absent. -/
def insertQuestionSchemaParse (r : RawQuestionInput) : Except String InsertQuestion :=
  match r.title, r.content, r.categoryId, r.authorName with
  | some t, some c, some cid, some an =>
    .ok { title := t, content := c, categoryId := cid, authorName := an,
          imageUrl := r.imageUrl, videoUrl := r.videoUrl,
          codeSnippet := r.codeSnippet, codeLanguage := r.codeLanguage }
  | _, _, _, _ => .error "Invalid data"

/-- `createQuestion` storage method: INSERT INTO questions VALUES (question)
RETURNING.  The database supplies the generated id and the defaults
votes = 0, viewCount = 0, answerCount = 0, isPinned = false,
createdAt = now(), and enforces the foreign key
questions.categoryId references categories.id declared in the schema: when
the referenced category row does not exist, the insert throws instead of
returning a row. -/
def createQuestion (db : DB) (iq : InsertQuestion) (userId : Option String)
    (genId : String) (now : Int) : Except String (Question × DB) :=
  if db.categories.any (fun c => c.id == iq.categoryId) then
    let q : Question :=
      { id := genId, title := iq.title, content := iq.content, categoryId := iq.categoryId,
        authorName := iq.authorName, userId := userId, votes := 0, viewCount := 0,
        answerCount := 0, isPinned := false, createdAt := now, imageUrl := iq.imageUrl,
        videoUrl := iq.videoUrl, codeSnippet := iq.codeSnippet, codeLanguage := iq.codeLanguage }
    .ok (q, { db with questions := db.questions ++ [q] })
  else
    .error "insert violates foreign key questions_category_id_categories_id_fk"

/-- Handler of POST /api/questions composed with requireAuth: parse the body
with insertQuestionSchema (ZodError gives 400); insert with the session
user's id and display name (a storage-level throw such as the categoryId
foreign-key violation reaches the catch, which answers 500 with nothing
written); on success addKarma(user, KARMA_REWARDS.ASK_QUESTION) and 201 with
the created row. -/
def createQuestionRoute (rw : KarmaRewards) (db : DB) (user : Option User)
    (raw : RawQuestionInput) (genId : String) (now : Int) :
    ApiResult × Option Question × DB :=
  match user with
  | none => (.unauthorized, none, db)
  | some u =>
    match insertQuestionSchemaParse raw with
    | .error _ => (.badRequest, none, db)
    | .ok iq =>
      match createQuestion db { iq with authorName := u.displayName.getD u.username }
          (some u.id) genId now with
      | .error _ => (.internalError, none, db)
      | .ok (q, db1) => (.created, some q, addKarma db1 u.id rw.askQuestion)

/-- A sample category row for the concrete witnesses. -/
def sampleCat : Category :=
  { id := "c1", name := "Networking", slug := "networking", description := none,
    icon := "wifi", color := "#06b6d4" }

/-- An input with a 5-character title and a 1-character content whose
categoryId names the sample category. -/
def shortTitleInput : RawQuestionInput :=
  { title := some "short", content := some "x", categoryId := some "c1",
    authorName := some "bob", imageUrl := none, videoUrl := none,
    codeSnippet := none, codeLanguage := none }

/-- An input whose title and content satisfy even the claimed length bounds
but whose categoryId matches no category row. -/
def missingCatInput : RawQuestionInput :=
  { title := some "How do I update my kernel safely",
    content := some "I ran apt upgrade and it failed with a dependency error.",
    categoryId := some "nocat", authorName := some "bob", imageUrl := none,
    videoUrl := none, codeSnippet := none, codeLanguage := none }

/-- Sample database carrying the sample category and one member. -/
def sampleDBCat : DB :=
  { users := [sampleUser "u1" .member], categories := [sampleCat], questions := [],
    answers := [], tokens := [] }

/-- Sample KARMA_REWARDS record used only by concrete witnesses (the claims
quantify over the record; these numbers follow the spec's reward list shape). -/
def sampleRewards : KarmaRewards :=
  { askQuestion := 5, postAnswer := 10, questionUpvoted := 2, questionDownvoted := -1,
    answerUpvoted := 2, answerDownvoted := -1, answerAccepted := 15 }

/-- Counterexample to C3 as stated: with the category present, an input whose
title has 5 characters (below the claimed minimum of 10) and whose content has
1 character (below the claimed minimum of 20) passes insertQuestionSchema and
POST /api/questions answers 201 Created instead of rejecting with a validation
error; and an input naming a categoryId with no category row is not rejected
with a validation error either — the insert's foreign-key violation surfaces
as 500 InternalError. -/
theorem insertQuestionSchema_accepts_short_title :
    (shortTitleInput.title.getD "").length = 5 ∧
    (shortTitleInput.content.getD "").length = 1 ∧
    insertQuestionSchemaParse shortTitleInput =
      .ok { title := "short", content := "x", categoryId := "c1", authorName := "bob",
            imageUrl := none, videoUrl := none, codeSnippet := none, codeLanguage := none } ∧
    (createQuestionRoute sampleRewards sampleDBCat
      (some (sampleUser "u1" .member)) shortTitleInput "q9" 0).1 = .created ∧
    (createQuestionRoute sampleRewards sampleDBCat
      (some (sampleUser "u1" .member)) missingCatInput "q9" 0).1 = .internalError := by
  refine ⟨rfl, rfl, rfl, rfl, rfl⟩

/-- C3 (amended). insertQuestionSchema accepts exactly the inputs whose four
required text columns (title, content, categoryId, authorName) are present; it
imposes no length bounds, and the category-exists requirement is enforced only
by the database foreign key rather than as input validation: for an
authenticated user, when the referenced category exists the route answers 201
and the created question has votes = 0, viewCount = 0, answerCount = 0,
isPinned = false with title, content and categoryId taken verbatim from the
input, and when it does not exist the route answers 500 InternalError (not a
validation error) with the database unchanged. -/
theorem createQuestionRoute_validation (rw : KarmaRewards) (db : DB) (u : User)
    (raw : RawQuestionInput) (genId : String) (now : Int) :
    ((∃ iq, insertQuestionSchemaParse raw = .ok iq) ↔
      (raw.title.isSome ∧ raw.content.isSome ∧ raw.categoryId.isSome ∧
        raw.authorName.isSome)) ∧
    (∀ iq, insertQuestionSchemaParse raw = .ok iq →
      (db.categories.any (fun c => c.id == iq.categoryId) = true →
        ∃ q, (createQuestionRoute rw db (some u) raw genId now).1 = .created ∧
          (createQuestionRoute rw db (some u) raw genId now).2.1 = some q ∧
          q.votes = 0 ∧ q.viewCount = 0 ∧ q.answerCount = 0 ∧ q.isPinned = false ∧
          q.title = iq.title ∧ q.content = iq.content ∧ q.categoryId = iq.categoryId) ∧
      (db.categories.any (fun c => c.id == iq.categoryId) = false →
        createQuestionRoute rw db (some u) raw genId now = (.internalError, none, db))) := by
  constructor
  · constructor
    · rintro ⟨iq, hiq⟩
      rcases raw with ⟨t, c, cid, an, i1, i2, i3, i4⟩
      rcases t with _ | t <;> rcases c with _ | c <;> rcases cid with _ | cid <;>
        rcases an with _ | an <;> simp_all [insertQuestionSchemaParse]
    · rintro ⟨h1, h2, h3, h4⟩
      rcases raw with ⟨t, c, cid, an, i1, i2, i3, i4⟩
      rcases t with _ | t <;> rcases c with _ | c <;> rcases cid with _ | cid <;>
        rcases an with _ | an <;> simp_all [insertQuestionSchemaParse]
  · intro iq hiq
    constructor
    · intro hcat
      refine
        ⟨{ id := genId, title := iq.title, content := iq.content,
           categoryId := iq.categoryId, authorName := u.displayName.getD u.username,
           userId := some u.id, votes := 0, viewCount := 0, answerCount := 0,
           isPinned := false, createdAt := now, imageUrl := iq.imageUrl,
           videoUrl := iq.videoUrl, codeSnippet := iq.codeSnippet,
           codeLanguage := iq.codeLanguage }, ?_⟩
      simp [createQuestionRoute, hiq, createQuestion, hcat]
    · intro hcat
      simp [createQuestionRoute, hiq, createQuestion, hcat]

/-- Witness for the amended C3: on the concrete database carrying the
category, the short valid body creates a question with zeroed counters and
unpinned state. -/
theorem createQuestionRoute_validation_witness :
    ∃ q, (createQuestionRoute sampleRewards sampleDBCat (some (sampleUser "u1" .member))
        shortTitleInput "q9" 7).1 = .created ∧
      (createQuestionRoute sampleRewards sampleDBCat (some (sampleUser "u1" .member))
        shortTitleInput "q9" 7).2.1 = some q ∧
      q.votes = 0 ∧ q.viewCount = 0 ∧ q.answerCount = 0 ∧ q.isPinned = false ∧
      q.title = "short" ∧ q.content = "x" ∧ q.categoryId = "c1" :=
  ((createQuestionRoute_validation sampleRewards sampleDBCat (sampleUser "u1" .member)
    shortTitleInput "q9" 7).2
    { title := "short", content := "x", categoryId := "c1", authorName := "bob",
      imageUrl := none, videoUrl := none, codeSnippet := none, codeLanguage := none }
    rfl).1 rfl

/-! ## Password reset (claims C6, C7) -/

/-- `createPasswordResetToken`: INSERT INTO password_reset_tokens
(userId, token, expiresAt = now + 60*60*1000); the random token and the
generated row id are passed in as `tok` and `rowId`. -/
def createPasswordResetToken (db : DB) (userId : String) (tok rowId : String)
    (now : Int) : DB :=
  { db with tokens := db.tokens ++
      [{ id := rowId, userId := userId, token := tok, expiresAt := now + 60 * 60 * 1000,
         usedAt := none, createdAt := now }] }

/-- `getPasswordResetToken`: SELECT FROM password_reset_tokens INNER JOIN users
ON userId = users.id WHERE token = tok AND expiresAt > now() AND usedAt IS NULL,
first row; the join condition is folded into the row predicate so that a token
row without its user produces no joined row. -/
def getPasswordResetToken (db : DB) (tok : String) (now : Int) :
    Option (ResetToken × User) :=
  match db.tokens.find? (fun t => t.token == tok && decide (now < t.expiresAt) &&
      t.usedAt.isNone && db.users.any (fun u => u.id == t.userId)) with
  | none => none
  | some t =>
    match db.users.find? (fun u => u.id == t.userId) with
    | none => none
    | some u => some (t, u)

/-- `usePasswordResetToken`: look up a valid token row; if absent throw the
error "Invalid or expired token"; otherwise UPDATE users SET password =
bcrypt.hash(newPassword) WHERE id = tokenData.userId, then UPDATE
password_reset_tokens SET usedAt = now() WHERE token = tok. -/
def usePasswordResetToken (db : DB) (tok newPassword : String) (now : Int) :
    Except String DB :=
  match getPasswordResetToken db tok now with
  | none => .error "Invalid or expired token"
  | some (t, _) =>
    let newUsers := db.users.map (fun u =>
      if u.id == t.userId then { u with password := bcryptHash newPassword } else u)
    let newTokens := db.tokens.map (fun r =>
      if r.token == tok then { r with usedAt := some now } else r)
    .ok { db with users := newUsers, tokens := newTokens }

/-- Response body shape of POST /api/auth/request-reset: success flag plus the
token field that is present only in the user-exists branch. -/
structure ResetResponse where
  success : Bool
  token : Option String
deriving DecidableEq, Repr

/-- Handler of POST /api/auth/request-reset: look up the user by username; if
absent, answer 200 success with no token and touch nothing; if present,
persist a reset token row and answer 200 success carrying the token. -/
def requestResetRoute (db : DB) (username : String) (tok rowId : String)
    (now : Int) : ResetResponse × DB :=
  match getUserByUsername db username with
  | none => ({ success := true, token := none }, db)
  | some u =>
    ({ success := true, token := some tok }, createPasswordResetToken db u.id tok rowId now)

/-! ## Claim C6: request-reset always succeeds, persists only for real users -/

/-- C6. requestReset answers success whether or not the username belongs to a
user; when the user does not exist the database is untouched, and when the
user exists exactly one reset token row is appended, expiring one hour
(3600000 ms) after now. -/
theorem requestResetRoute_spec (db : DB) (username tok rowId : String) (now : Int) :
    (requestResetRoute db username tok rowId now).1.success = true ∧
    (getUserByUsername db username = none →
      (requestResetRoute db username tok rowId now).2 = db) ∧
    (∀ u, getUserByUsername db username = some u →
      (requestResetRoute db username tok rowId now).2.tokens =
        db.tokens ++ [{ id := rowId, userId := u.id, token := tok,
                        expiresAt := now + 60 * 60 * 1000, usedAt := none,
                        createdAt := now }] ∧
      (requestResetRoute db username tok rowId now).2.users = db.users) := by
  refine ⟨?_, ?_, ?_⟩
  · cases h : getUserByUsername db username <;> simp [requestResetRoute, h]
  · intro h
    simp [requestResetRoute, h]
  · intro u h
    simp [requestResetRoute, h, createPasswordResetToken]

/-- Witness for C6: on a concrete database, requesting a reset for an unknown
username succeeds and changes nothing; the user branch is exercised through
the success flag. -/
theorem requestResetRoute_spec_witness :
    (requestResetRoute
        { users := [sampleUser "u1" .member], categories := [], questions := [],
          answers := [], tokens := [] }
        "nobody" "tok1" "row1" 0).2 =
      { users := [sampleUser "u1" .member], categories := [], questions := [],
        answers := [], tokens := [] } :=
  (requestResetRoute_spec
    { users := [sampleUser "u1" .member], categories := [], questions := [],
      answers := [], tokens := [] }
    "nobody" "tok1" "row1" 0).2.1
    (by simp [getUserByUsername, sampleUser, List.find?])

/-! ## Claim C7: consumeReset errors and single use -/

/-- C7. Given the foreign-key invariant that every token row has its user row:
consuming a reset token fails with the invalid-or-expired error exactly when
no stored row carries this token unexpired and unused; on success the user of
the consumed token has the password rehashed, every row carrying this token is
marked used at the call time, and a second call with the same token fails with
the invalid-or-expired error whatever the new password and clock. -/
theorem usePasswordResetToken_spec (db : DB) (tok newPassword : String) (now : Int)
    (hfk : ∀ t ∈ db.tokens, ∃ u ∈ db.users, u.id = t.userId) :
    ((∃ e, usePasswordResetToken db tok newPassword now = .error e) ↔
      ¬ ∃ t ∈ db.tokens, t.token = tok ∧ now < t.expiresAt ∧ t.usedAt = none) ∧
    (∀ db2, usePasswordResetToken db tok newPassword now = .ok db2 →
      (∃ t ∈ db.tokens, t.token = tok ∧
        getUser db2 t.userId =
          (getUser db t.userId).map
            (fun u => { u with password := bcryptHash newPassword })) ∧
      (∀ r ∈ db2.tokens, r.token = tok → r.usedAt = some now) ∧
      (∀ pw2 now2, ∃ e, usePasswordResetToken db2 tok pw2 now2 = .error e)) := by
  constructor
  · constructor
    · rintro ⟨e, he⟩ ⟨t, ht, htok, hexp, hused⟩
      unfold usePasswordResetToken getPasswordResetToken at he
      cases hfind : db.tokens.find? (fun t => t.token == tok &&
          decide (now < t.expiresAt) && t.usedAt.isNone &&
          db.users.any (fun u => u.id == t.userId)) with
      | none =>
        have hall := List.find?_eq_none.mp hfind t ht
        obtain ⟨u, hu, hui⟩ := hfk t ht
        have hany : db.users.any (fun v => v.id == t.userId) = true := by
          rw [List.any_eq_true]
          exact ⟨u, hu, by simp [hui]⟩
        simp [htok, hexp, hused, hany] at hall
      | some t0 =>
        rw [hfind] at he
        have hp := List.find?_some hfind
        simp only [Bool.and_eq_true, List.any_eq_true, beq_iff_eq] at hp
        obtain ⟨u, hu, hui⟩ := hp.2
        cases hufind : db.users.find? (fun u => u.id == t0.userId) with
        | none =>
          have := List.find?_eq_none.mp hufind u hu
          simp [hui] at this
        | some u0 =>
          simp [hufind] at he
    · intro hnone
      refine ⟨"Invalid or expired token", ?_⟩
      unfold usePasswordResetToken getPasswordResetToken
      have hfind : db.tokens.find? (fun t => t.token == tok &&
          decide (now < t.expiresAt) && t.usedAt.isNone &&
          db.users.any (fun u => u.id == t.userId)) = none := by
        rw [List.find?_eq_none]
        intro t ht hPt
        simp only [Bool.and_eq_true, beq_iff_eq, decide_eq_true_eq,
          Option.isNone_iff_eq_none] at hPt
        exact hnone ⟨t, ht, hPt.1.1.1, hPt.1.1.2, hPt.1.2⟩
      rw [hfind]
  · intro db2 hok
    unfold usePasswordResetToken getPasswordResetToken at hok
    cases hfind : db.tokens.find? (fun t => t.token == tok &&
        decide (now < t.expiresAt) && t.usedAt.isNone &&
        db.users.any (fun u => u.id == t.userId)) with
    | none =>
      rw [hfind] at hok
      simp at hok
    | some t0 =>
      rw [hfind] at hok
      have hp := List.find?_some hfind
      have hmem := List.mem_of_find?_eq_some hfind
      simp only [Bool.and_eq_true, beq_iff_eq, decide_eq_true_eq,
        Option.isNone_iff_eq_none, List.any_eq_true] at hp
      obtain ⟨⟨⟨htok, hexp⟩, hused⟩, u, hu, hui⟩ := hp
      cases hufind : db.users.find? (fun v => v.id == t0.userId) with
      | none =>
        have := List.find?_eq_none.mp hufind u hu
        simp [hui] at this
      | some u0 =>
        simp only [hufind, Except.ok.injEq] at hok
        subst hok
        refine ⟨⟨t0, hmem, htok, ?_⟩, ?_, ?_⟩
        · show (db.users.map _).find? _ = _
          rw [find?_cond_map (fun v : User => v.id == t0.userId)
            (fun v : User => { v with password := bcryptHash newPassword })
            (fun v => by simp)]
          rfl
        · intro r hr hrtok
          simp only [List.mem_map] at hr
          obtain ⟨r0, hr0, rfl⟩ := hr
          by_cases hc : r0.token = tok
          · simp [hc]
          · simp [hc] at hrtok
        · intro pw2 now2
          refine ⟨"Invalid or expired token", ?_⟩
          unfold usePasswordResetToken getPasswordResetToken
          have hnone2 : (db.tokens.map (fun r =>
              if r.token == tok then { r with usedAt := some now } else r)).find?
              (fun t => t.token == tok && decide (now2 < t.expiresAt) && t.usedAt.isNone &&
                (db.users.map (fun v =>
                  if v.id == t0.userId then { v with password := bcryptHash newPassword }
                  else v)).any (fun u => u.id == t.userId)) = none := by
            rw [List.find?_eq_none]
            intro r hr hPr
            simp only [List.mem_map] at hr
            obtain ⟨r0, hr0, rfl⟩ := hr
            by_cases hc : r0.token = tok <;> simp [hc] at hPr
          rw [hnone2]


/-- A sample valid reset-token row for the concrete witness. -/
def sampleToken : ResetToken :=
  { id := "r1", userId := "u1", token := "tk", expiresAt := 100, usedAt := none,
    createdAt := 0 }

/-- Sample database with one user and one valid token for the concrete witness. -/
def sampleDBReset : DB :=
  { users := [sampleUser "u1" .member], categories := [], questions := [],
    answers := [], tokens := [sampleToken] }

/-- Witness for C7: on a concrete database, after a first successful
consumption at time 50, the second consumption of the same token fails with
the invalid-or-expired error. -/
theorem usePasswordResetToken_spec_witness :
    ∃ e, usePasswordResetToken
        { users := [{ sampleUser "u1" .member with password := bcryptHash "newpw" }],
          categories := [], questions := [], answers := [],
          tokens := [{ sampleToken with usedAt := some 50 }] }
        "tk" "again" 60 = .error e :=
  (((usePasswordResetToken_spec sampleDBReset "tk" "newpw" 50
      (by
        intro t ht
        simp [sampleDBReset, sampleToken] at ht
        subst ht
        exact ⟨sampleUser "u1" .member, by simp [sampleDBReset], rfl⟩)).2
    { users := [{ sampleUser "u1" .member with password := bcryptHash "newpw" }],
      categories := [], questions := [], answers := [],
      tokens := [{ sampleToken with usedAt := some 50 }] }
    (by rfl)).2.2) "again" 60

/-! ## Vote routes (claims C5, C10) -/

/-- Boolean comparator for ORDER BY isAccepted DESC, votes DESC. -/
def answerOrd (a b : Answer) : Bool :=
  if a.isAccepted == b.isAccepted then decide (b.votes ≤ a.votes) else a.isAccepted

/-- `getAnswersByQuestionId`: SELECT * FROM answers WHERE questionId = questionId
ORDER BY isAccepted DESC, votes DESC. -/
def getAnswersByQuestionId (db : DB) (questionId : String) : List Answer :=
  (db.answers.filter (fun a => a.questionId == questionId)).mergeSort answerOrd

/-- `getQuestionById` as consumed by the routes: the question row joined with
its category (a question whose category row is missing yields no joined row;
the answers sub-list of the result is not consumed by the routes modelled
here). -/
def getQuestionById (db : DB) (id : String) : Option Question :=
  match db.questions.find? (fun q => q.id == id) with
  | none => none
  | some q => if db.categories.any (fun c => c.id == q.categoryId) then some q else none

/-- Handler of POST /api/questions/:id/vote: validate direction (else 400 with
no mutation); read the joined question row; updateQuestionVotes
unconditionally; when the joined row exists and carries a userId, addKarma to
that author with QUESTION_UPVOTED or QUESTION_DOWNVOTED; answer success. -/
def voteQuestionRoute (rw : KarmaRewards) (db : DB) (qid : String)
    (direction : String) : ApiResult × DB :=
  if ¬ (direction = "up" ∨ direction = "down") then (.badRequest, db)
  else
    let up := direction = "up"
    let db1 := updateQuestionVotes db qid up
    match getQuestionById db qid with
    | some q =>
      match q.userId with
      | some uid =>
        (.ok, addKarma db1 uid (if up then rw.questionUpvoted else rw.questionDownvoted))
      | none => (.ok, db1)
    | none => (.ok, db1)

/-- Handler of POST /api/answers/:id/vote: validate direction (else 400 with no
mutation); load the answers of req.body.questionId (of the empty string when
the body carries none) and look for the voted answer among them;
updateAnswerVotes unconditionally; when the looked-up answer carries a userId,
addKarma to that author with ANSWER_UPVOTED or ANSWER_DOWNVOTED; answer
success. -/
def voteAnswerRoute (rw : KarmaRewards) (db : DB) (aid : String)
    (bodyQuestionId : Option String) (direction : String) : ApiResult × DB :=
  if ¬ (direction = "up" ∨ direction = "down") then (.badRequest, db)
  else
    let up := direction = "up"
    let db1 := updateAnswerVotes db aid up
    match (getAnswersByQuestionId db (bodyQuestionId.getD "")).find?
        (fun a => a.id == aid) with
    | some a =>
      match a.userId with
      | some uid =>
        (.ok, addKarma db1 uid (if up then rw.answerUpvoted else rw.answerDownvoted))
      | none => (.ok, db1)
    | none => (.ok, db1)

/-- Plain row lookup in the answers table (first row with the given id);
statement-level accessor used to phrase the theorems. -/
def answerRow (db : DB) (id : String) : Option Answer :=
  db.answers.find? (fun a => a.id == id)

/-! ### Small state lemmas for the vote routes -/

/-- The targeted question row after updateQuestionVotes. -/
theorem questionRow_updateQuestionVotes (d : DB) (qid : String) (up : Bool) :
    questionRow (updateQuestionVotes d qid up) qid =
      (questionRow d qid).map
        (fun q => { q with votes := q.votes + (if up then 1 else -1) }) := by
  show (d.questions.map _).find? _ = _
  rw [find?_cond_map (fun q : Question => q.id == qid)
    (fun q : Question => { q with votes := q.votes + (if up then 1 else -1) })
    (fun q => by simp)]
  rfl

/-- The targeted answer row after updateAnswerVotes. -/
theorem answerRow_updateAnswerVotes (d : DB) (aid : String) (up : Bool) :
    answerRow (updateAnswerVotes d aid up) aid =
      (answerRow d aid).map
        (fun a => { a with votes := a.votes + (if up then 1 else -1) }) := by
  show (d.answers.map _).find? _ = _
  rw [find?_cond_map (fun a : Answer => a.id == aid)
    (fun a : Answer => { a with votes := a.votes + (if up then 1 else -1) })
    (fun a => by simp)]
  rfl

/-- addKarma touches only the users table. -/
theorem questionRow_addKarma (d : DB) (uid : String) (δ : Int) (i : String) :
    questionRow (addKarma d uid δ) i = questionRow d i := rfl

/-- addKarma touches only the users table. -/
theorem answerRow_addKarma (d : DB) (uid : String) (δ : Int) (i : String) :
    answerRow (addKarma d uid δ) i = answerRow d i := rfl

/-- updateQuestionVotes touches only the questions table. -/
theorem getUser_updateQuestionVotes (d : DB) (qid : String) (up : Bool) (i : String) :
    getUser (updateQuestionVotes d qid up) i = getUser d i := rfl

/-- updateAnswerVotes touches only the answers table. -/
theorem getUser_updateAnswerVotes (d : DB) (aid : String) (up : Bool) (i : String) :
    getUser (updateAnswerVotes d aid up) i = getUser d i := rfl

/-- The karma equation of a single addKarma call on the targeted user. -/
theorem getUser_addKarma (d : DB) (uid : String) (δ : Int) :
    getUser (addKarma d uid δ) uid =
      (getUser d uid).map (fun u => { u with karma := max 0 (u.karma + δ) }) := by
  show (d.users.map _).find? _ = _
  rw [find?_cond_map (fun u : User => u.id == uid)
    (fun u : User => { u with karma := max 0 (u.karma + δ) }) (fun u => by simp)]
  rfl

/-- addKarma leaves every other user row unchanged. -/
theorem getUser_addKarma_ne (d : DB) (uid id2 : String) (δ : Int) (hne : ¬ id2 = uid) :
    getUser (addKarma d uid δ) id2 = getUser d id2 := by
  show (d.users.map _).find? _ = _
  rw [find?_map_pres _ _ (fun u => by by_cases hc : (u.id == uid) = true <;> simp [hc])]
  cases hfind : d.users.find? (fun u => u.id == id2) with
  | none => simp [getUser, hfind]
  | some u =>
    have hpu := List.find?_some hfind
    rw [beq_iff_eq] at hpu
    simp [getUser, hfind, hpu, hne]

/-- A no-op conditional map: when no row matches, the table is unchanged. -/
theorem updateQuestionVotes_noop (d : DB) (qid : String) (up : Bool)
    (h : ∀ q ∈ d.questions, ¬ q.id = qid) : updateQuestionVotes d qid up = d := by
  show { d with questions := _ } = d
  have : ∀ q ∈ d.questions,
      (if q.id == qid then { q with votes := q.votes + (if up then 1 else -1) } else q) = q := by
    intro q hq
    simp [h q hq]
  rw [List.map_congr_left this]
  simp

/-- A no-op conditional map: when no row matches, the table is unchanged. -/
theorem updateAnswerVotes_noop (d : DB) (aid : String) (up : Bool)
    (h : ∀ a ∈ d.answers, ¬ a.id = aid) : updateAnswerVotes d aid up = d := by
  show { d with answers := _ } = d
  have : ∀ a ∈ d.answers,
      (if a.id == aid then { a with votes := a.votes + (if up then 1 else -1) } else a) = a := by
    intro a ha
    simp [h a ha]
  rw [List.map_congr_left this]
  simp

/-- find? returns the designated row when it is the only matching one. -/
theorem find?_eq_some_of_unique {α : Type} (p : α → Bool) (l : List α) (a : α)
    (ha : a ∈ l) (hpa : p a = true) (huniq : ∀ b ∈ l, p b = true → b = a) :
    l.find? p = some a := by
  induction l with
  | nil => cases ha
  | cons x t ih =>
    by_cases hx : p x = true
    · rw [List.find?_cons_of_pos t hx]
      rw [huniq x (List.mem_cons_self x t) hx]
    · rw [List.find?_cons_of_neg t hx]
      have hat : a ∈ t := by
        rcases List.mem_cons.mp ha with h | h
        · subst h
          exact absurd hpa hx
        · exact h
      exact ih hat (fun b hb hpb => huniq b (List.mem_cons_of_mem x hb) hpb)

/-- The up-vote route adds one to the votes of the targeted question row,
whatever the lookup and karma branches do. -/
theorem questionRow_voteQuestionRoute_up (rw : KarmaRewards) (d : DB) (qid : String) :
    questionRow (voteQuestionRoute rw d qid "up").2 qid =
      (questionRow d qid).map (fun q => { q with votes := q.votes + 1 }) := by
  have hbase := questionRow_updateQuestionVotes d qid true
  simp only [if_pos] at hbase
  cases hq : getQuestionById d qid with
  | none => simpa [voteQuestionRoute, hq] using hbase
  | some q0 =>
    cases huid : q0.userId with
    | none => simpa [voteQuestionRoute, hq, huid] using hbase
    | some uid => simpa [voteQuestionRoute, hq, huid, questionRow_addKarma] using hbase

/-- The down-vote route subtracts one from the votes of the targeted question
row, whatever the lookup and karma branches do. -/
theorem questionRow_voteQuestionRoute_down (rw : KarmaRewards) (d : DB) (qid : String) :
    questionRow (voteQuestionRoute rw d qid "down").2 qid =
      (questionRow d qid).map (fun q => { q with votes := q.votes - 1 }) := by
  have hbase := questionRow_updateQuestionVotes d qid false
  simp only [if_neg, Int.sub_eq_add_neg] at hbase
  cases hq : getQuestionById d qid with
  | none => simpa [voteQuestionRoute, hq, Int.sub_eq_add_neg] using hbase
  | some q0 =>
    cases huid : q0.userId with
    | none => simpa [voteQuestionRoute, hq, huid, Int.sub_eq_add_neg] using hbase
    | some uid =>
      simpa [voteQuestionRoute, hq, huid, questionRow_addKarma, Int.sub_eq_add_neg] using hbase

/-! ## Claim C5: votes move by one per call, karma goes to the author -/

/-- C5. For a vote on an existing (joined) question: the route answers success,
up moves the row's votes up by exactly one and down by exactly one; when the
question carries an authenticated author, that author's karma receives the
fixed QUESTION_UPVOTED or QUESTION_DOWNVOTED delta exactly once (through the
clamped addKarma write), and every other user is untouched; no voter identity
exists anywhere in the state, and n repeated up-vote calls add n (unbounded
repetition).  For a vote on an existing answer whose question id accompanies
the request: the same holds with ANSWER_UPVOTED / ANSWER_DOWNVOTED. -/
theorem vote_updates_votes_and_karma_once (rw : KarmaRewards) (db : DB) :
    (∀ qid q, getQuestionById db qid = some q →
      ((voteQuestionRoute rw db qid "up").1 = .ok ∧
       (voteQuestionRoute rw db qid "down").1 = .ok) ∧
      (questionRow (voteQuestionRoute rw db qid "up").2 qid =
        some { q with votes := q.votes + 1 } ∧
       questionRow (voteQuestionRoute rw db qid "down").2 qid =
        some { q with votes := q.votes - 1 }) ∧
      (∀ uid, q.userId = some uid →
        getUser (voteQuestionRoute rw db qid "up").2 uid =
          (getUser db uid).map
            (fun u => { u with karma := max 0 (u.karma + rw.questionUpvoted) }) ∧
        getUser (voteQuestionRoute rw db qid "down").2 uid =
          (getUser db uid).map
            (fun u => { u with karma := max 0 (u.karma + rw.questionDownvoted) })) ∧
      (∀ other, ¬ q.userId = some other →
        getUser (voteQuestionRoute rw db qid "up").2 other = getUser db other)) ∧
    (∀ (n : Nat) (qid : String) (q : Question), questionRow db qid = some q →
      questionRow ((fun d => (voteQuestionRoute rw d qid "up").2)^[n] db) qid =
        some { q with votes := q.votes + (n : Int) }) ∧
    (∀ aid a, a ∈ db.answers → a.id = aid →
      (db.answers.map (fun x => x.id)).Nodup →
      ((voteAnswerRoute rw db aid (some a.questionId) "up").1 = .ok ∧
       (voteAnswerRoute rw db aid (some a.questionId) "down").1 = .ok) ∧
      (answerRow (voteAnswerRoute rw db aid (some a.questionId) "up").2 aid =
        some { a with votes := a.votes + 1 } ∧
       answerRow (voteAnswerRoute rw db aid (some a.questionId) "down").2 aid =
        some { a with votes := a.votes - 1 }) ∧
      (∀ uid, a.userId = some uid →
        getUser (voteAnswerRoute rw db aid (some a.questionId) "up").2 uid =
          (getUser db uid).map
            (fun u => { u with karma := max 0 (u.karma + rw.answerUpvoted) }) ∧
        getUser (voteAnswerRoute rw db aid (some a.questionId) "down").2 uid =
          (getUser db uid).map
            (fun u => { u with karma := max 0 (u.karma + rw.answerDownvoted) }))) := by
  refine ⟨?_, ?_, ?_⟩
  · intro qid q hq
    refine ⟨⟨?_, ?_⟩, ⟨?_, ?_⟩, ?_, ?_⟩
    · cases huid : q.userId <;> simp [voteQuestionRoute, hq, huid]
    · cases huid : q.userId <;> simp [voteQuestionRoute, hq, huid]
    · have hrow : questionRow db qid = some q := by
        unfold getQuestionById at hq
        cases hfind : db.questions.find? (fun x => x.id == qid) with
        | none => rw [hfind] at hq; cases hq
        | some q0 =>
          rw [hfind] at hq
          by_cases hcat : db.categories.any (fun c => c.id == q0.categoryId) = true <;>
            simp [hcat] at hq
          rw [questionRow, hfind, hq]
      rw [questionRow_voteQuestionRoute_up, hrow]
      rfl
    · have hrow : questionRow db qid = some q := by
        unfold getQuestionById at hq
        cases hfind : db.questions.find? (fun x => x.id == qid) with
        | none => rw [hfind] at hq; cases hq
        | some q0 =>
          rw [hfind] at hq
          by_cases hcat : db.categories.any (fun c => c.id == q0.categoryId) = true <;>
            simp [hcat] at hq
          rw [questionRow, hfind, hq]
      rw [questionRow_voteQuestionRoute_down, hrow]
      rfl
    · intro uid huid
      constructor
      · have h1 : getUser (addKarma (updateQuestionVotes db qid true) uid rw.questionUpvoted) uid =
            (getUser db uid).map
              (fun u => { u with karma := max 0 (u.karma + rw.questionUpvoted) }) := by
          rw [getUser_addKarma, getUser_updateQuestionVotes]
        simpa [voteQuestionRoute, hq, huid] using h1
      · have h1 : getUser (addKarma (updateQuestionVotes db qid false) uid rw.questionDownvoted) uid =
            (getUser db uid).map
              (fun u => { u with karma := max 0 (u.karma + rw.questionDownvoted) }) := by
          rw [getUser_addKarma, getUser_updateQuestionVotes]
        simpa [voteQuestionRoute, hq, huid] using h1
    · intro other hother
      cases huid : q.userId with
      | none => simp [voteQuestionRoute, hq, huid, getUser_updateQuestionVotes]
      | some uid =>
        have hne : ¬ other = uid := by
          intro h
          rw [h] at hother
          exact hother huid
        have h1 : getUser (addKarma (updateQuestionVotes db qid true) uid rw.questionUpvoted) other =
            getUser db other := by
          rw [getUser_addKarma_ne _ _ _ _ hne, getUser_updateQuestionVotes]
        simpa [voteQuestionRoute, hq, huid] using h1
  · intro n qid q hrow
    induction n with
    | zero => simpa using hrow
    | succ k ih =>
      rw [Function.iterate_succ_apply', questionRow_voteQuestionRoute_up, ih]
      simp [Nat.cast_succ, add_assoc]
  · intro aid a ha haid hnodup
    have hfa : (getAnswersByQuestionId db a.questionId).find?
        (fun b => b.id == aid) = some a := by
      apply find?_eq_some_of_unique
      · unfold getAnswersByQuestionId
        rw [List.mem_mergeSort, List.mem_filter]
        exact ⟨ha, by simp⟩
      · simp [haid]
      · intro b hb hpb
        unfold getAnswersByQuestionId at hb
        rw [List.mem_mergeSort, List.mem_filter] at hb
        rw [beq_iff_eq] at hpb
        exact List.inj_on_of_nodup_map hnodup hb.1 ha (by rw [hpb, haid])
    refine ⟨⟨?_, ?_⟩, ⟨?_, ?_⟩, ?_⟩
    · cases huid : a.userId <;> simp [voteAnswerRoute, hfa, huid]
    · cases huid : a.userId <;> simp [voteAnswerRoute, hfa, huid]
    · have hrowa : answerRow db aid = some a :=
        find?_eq_some_of_unique _ _ _ ha (by simp [haid])
          (fun b hb hpb => List.inj_on_of_nodup_map hnodup hb ha
            (by rw [beq_iff_eq] at hpb; rw [hpb, haid]))
      have hbase := answerRow_updateAnswerVotes db aid true
      rw [hrowa] at hbase
      cases huid : a.userId with
      | none => simpa [voteAnswerRoute, hfa, huid] using hbase
      | some uid => simpa [voteAnswerRoute, hfa, huid, answerRow_addKarma] using hbase
    · have hrowa : answerRow db aid = some a :=
        find?_eq_some_of_unique _ _ _ ha (by simp [haid])
          (fun b hb hpb => List.inj_on_of_nodup_map hnodup hb ha
            (by rw [beq_iff_eq] at hpb; rw [hpb, haid]))
      have hbase := answerRow_updateAnswerVotes db aid false
      rw [hrowa] at hbase
      cases huid : a.userId with
      | none => simpa [voteAnswerRoute, hfa, huid, Int.sub_eq_add_neg] using hbase
      | some uid =>
        simpa [voteAnswerRoute, hfa, huid, answerRow_addKarma, Int.sub_eq_add_neg] using hbase
    · intro uid huid
      constructor
      · have h1 : getUser (addKarma (updateAnswerVotes db aid true) uid rw.answerUpvoted) uid =
            (getUser db uid).map
              (fun u => { u with karma := max 0 (u.karma + rw.answerUpvoted) }) := by
          rw [getUser_addKarma, getUser_updateAnswerVotes]
        simpa [voteAnswerRoute, hfa, huid] using h1
      · have h1 : getUser (addKarma (updateAnswerVotes db aid false) uid rw.answerDownvoted) uid =
            (getUser db uid).map
              (fun u => { u with karma := max 0 (u.karma + rw.answerDownvoted) }) := by
          rw [getUser_addKarma, getUser_updateAnswerVotes]
        simpa [voteAnswerRoute, hfa, huid] using h1

/-- The sample question owned by user u1. -/
def sampleQOwned : Question :=
  { sampleQ with userId := some "u1" }

/-- Sample joined database for the vote witnesses. -/
def sampleDBVote : DB :=
  { users := [sampleUser "u1" .member], categories := [sampleCat],
    questions := [sampleQOwned], answers := [], tokens := [] }

/-- Witness for C5: an up-vote on the concrete question takes its votes from 0
to 1. -/
theorem vote_updates_votes_and_karma_once_witness :
    questionRow (voteQuestionRoute sampleRewards sampleDBVote "q1" "up").2 "q1" =
      some { sampleQOwned with votes := sampleQOwned.votes + 1 } :=
  (((vote_updates_votes_and_karma_once sampleRewards sampleDBVote).1 "q1"
    sampleQOwned rfl).2.1).1

/-! ## Claim C10: voting on a missing id succeeds and mutates nothing -/

/-- C10. Voting up or down on a question id or an answer id that matches no
stored row answers success (not NotFound) and returns the database unchanged:
every stored question, answer and user, including all vote counts and karma
values, is exactly as before. -/
theorem vote_on_missing_id_is_noop (rw : KarmaRewards) (db : DB) :
    (∀ qid, (∀ q ∈ db.questions, ¬ q.id = qid) →
      voteQuestionRoute rw db qid "up" = (.ok, db) ∧
      voteQuestionRoute rw db qid "down" = (.ok, db)) ∧
    (∀ aid bq, (∀ a ∈ db.answers, ¬ a.id = aid) →
      voteAnswerRoute rw db aid bq "up" = (.ok, db) ∧
      voteAnswerRoute rw db aid bq "down" = (.ok, db)) := by
  constructor
  · intro qid h
    have hfind : db.questions.find? (fun q => q.id == qid) = none := by
      rw [List.find?_eq_none]
      intro q hq
      simpa using h q hq
    have hnone : getQuestionById db qid = none := by
      unfold getQuestionById
      rw [hfind]
    constructor <;>
      simp [voteQuestionRoute, hnone, updateQuestionVotes_noop db qid _ h]
  · intro aid bq h
    have hfind : (getAnswersByQuestionId db (bq.getD "")).find?
        (fun a => a.id == aid) = none := by
      rw [List.find?_eq_none]
      intro a ha
      unfold getAnswersByQuestionId at ha
      rw [List.mem_mergeSort, List.mem_filter] at ha
      simpa using h a ha.1
    constructor <;>
      simp [voteAnswerRoute, hfind, updateAnswerVotes_noop db aid _ h]

/-- Witness for C10: on the concrete one-question database, voting on a
missing question id returns success and the identical database. -/
theorem vote_on_missing_id_is_noop_witness :
    voteQuestionRoute sampleRewards sampleDB1 "missing" "up" = (.ok, sampleDB1) :=
  ((vote_on_missing_id_is_noop sampleRewards sampleDB1).1 "missing"
    (by intro q hq; simp [sampleDB1] at hq; subst hq; simp [sampleQ])).1

/-! ## Claim C9: getQuestions ordering -/

/-- Boolean comparator for ORDER BY isPinned DESC, key DESC: a pinned row goes
before an unpinned one, rows with equal pinned flag order by descending key. -/
def pinnedKeyLe (key : Question → Int) (a b : Question) : Bool :=
  if a.isPinned == b.isPinned then decide (key b ≤ key a) else a.isPinned

/-- `.limit(n)` applied only when `options?.limit` is truthy: absent or 0 (and
JavaScript NaN, not representable here) leave the list whole. -/
def applyLimit (limit : Option Nat) (l : List Question) : List Question :=
  match limit with
  | some n => if n ≠ 0 then l.take n else l
  | none => l

/-- `getQuestions(options)`: questions INNER JOIN categories, optional WHERE
category.slug = categorySlug, ordered per sort mode with pinned first:
top = votes DESC, active = answerCount DESC, unanswered = WHERE
answerCount = 0 (drizzle's second .where on the same builder replaces the
category condition) ordered by createdAt DESC, and any other sort value
(recent included) = createdAt DESC; then the limit. -/
def getQuestions (db : DB) (categorySlug : Option String) (sort : Option String)
    (limit : Option Nat) : List Question :=
  let joined : List Question := db.questions.filter (fun q =>
    db.categories.any (fun c => c.id == q.categoryId))
  let base : List Question :=
    match categorySlug with
    | none => joined
    | some s => joined.filter (fun q =>
        ((db.categories.find? (fun c => c.id == q.categoryId)).map
          (fun c => c.slug)).getD "" == s)
  let ordered : List Question :=
    if sort = some "top" then base.mergeSort (pinnedKeyLe (fun q => q.votes))
    else if sort = some "active" then
      base.mergeSort (pinnedKeyLe (fun q => q.answerCount))
    else if sort = some "unanswered" then
      (joined.filter (fun q => q.answerCount == 0)).mergeSort
        (pinnedKeyLe (fun q => q.createdAt))
    else base.mergeSort (pinnedKeyLe (fun q => q.createdAt))
  applyLimit limit ordered

/-- The pinned-then-key comparator is transitive. -/
theorem pinnedKeyLe_trans (key : Question → Int) (a b c : Question)
    (hab : pinnedKeyLe key a b = true) (hbc : pinnedKeyLe key b c = true) :
    pinnedKeyLe key a c = true := by
  cases hpa : a.isPinned <;> cases hpb : b.isPinned <;> cases hpc : c.isPinned <;>
    simp_all [pinnedKeyLe] <;> omega

/-- The pinned-then-key comparator is total. -/
theorem pinnedKeyLe_total (key : Question → Int) (a b : Question) :
    (pinnedKeyLe key a b || pinnedKeyLe key b a) = true := by
  cases hpa : a.isPinned <;> cases hpb : b.isPinned <;>
    simp_all [pinnedKeyLe] <;> omega

/-- Taking a limit prefix preserves any pairwise ordering. -/
theorem applyLimit_pairwise (limit : Option Nat) (l : List Question)
    (R : Question → Question → Prop) (h : List.Pairwise R l) :
    List.Pairwise R (applyLimit limit l) := by
  cases limit with
  | none => exact h
  | some n =>
    show List.Pairwise R (if n ≠ 0 then List.take n l else l)
    by_cases hn : n ≠ 0
    · rw [if_pos hn]
      exact List.Pairwise.sublist (List.take_sublist n l) h
    · rw [if_neg hn]
      exact h

/-- Membership survives the limit prefix backwards. -/
theorem mem_applyLimit (limit : Option Nat) (l : List Question) (q : Question)
    (h : q ∈ applyLimit limit l) : q ∈ l := by
  cases limit with
  | none => exact h
  | some n =>
    have h2 : q ∈ (if n ≠ 0 then List.take n l else l) := h
    by_cases hn : n ≠ 0
    · rw [if_pos hn] at h2
      exact List.mem_of_mem_take h2
    · rwa [if_neg hn] at h2

/-- Sortedness of every mergeSort by the pinned-then-key comparator. -/
theorem mergeSort_pinnedKeyLe_sorted (key : Question → Int) (l : List Question) :
    List.Pairwise (fun a b => pinnedKeyLe key a b = true)
      (l.mergeSort (pinnedKeyLe key)) :=
  List.sorted_mergeSort (pinnedKeyLe_trans key) (pinnedKeyLe_total key) l

/-- C9. Before the limit prefix is applied, listing is sorted with pinned rows
first and the mode's key descending: createdAt for sort=recent (the default
branch), votes for sort=top, answerCount for sort=active, createdAt for
sort=unanswered, which moreover only returns questions whose answerCount is
exactly 0; in every sort mode (any sort value at all) a pinned question never
appears after an unpinned one. -/
theorem getQuestions_ordering (db : DB) (slug : Option String) (limit : Option Nat) :
    (List.Pairwise (fun a b => pinnedKeyLe (fun q => q.createdAt) a b = true)
      (getQuestions db slug (some "recent") limit) ∧
     List.Pairwise (fun a b => pinnedKeyLe (fun q => q.votes) a b = true)
      (getQuestions db slug (some "top") limit) ∧
     List.Pairwise (fun a b => pinnedKeyLe (fun q => q.answerCount) a b = true)
      (getQuestions db slug (some "active") limit) ∧
     List.Pairwise (fun a b => pinnedKeyLe (fun q => q.createdAt) a b = true)
      (getQuestions db slug (some "unanswered") limit)) ∧
    (∀ srt, List.Pairwise (fun a b => b.isPinned = true → a.isPinned = true)
      (getQuestions db slug srt limit)) ∧
    (∀ q ∈ getQuestions db slug (some "unanswered") limit, q.answerCount = 0) := by
  refine ⟨⟨?_, ?_, ?_, ?_⟩, ?_, ?_⟩
  · exact applyLimit_pairwise _ _ _ (mergeSort_pinnedKeyLe_sorted _ _)
  · exact applyLimit_pairwise _ _ _ (mergeSort_pinnedKeyLe_sorted _ _)
  · exact applyLimit_pairwise _ _ _ (mergeSort_pinnedKeyLe_sorted _ _)
  · exact applyLimit_pairwise _ _ _ (mergeSort_pinnedKeyLe_sorted _ _)
  · intro srt
    have hpin : ∀ (key : Question → Int) (l : List Question),
        List.Pairwise (fun a b => b.isPinned = true → a.isPinned = true)
          (l.mergeSort (pinnedKeyLe key)) := by
      intro key l
      refine (mergeSort_pinnedKeyLe_sorted key l).imp ?_
      intro a b hab hb
      by_cases hpa : a.isPinned <;> simp_all [pinnedKeyLe]
    by_cases h1 : srt = some "top" <;> by_cases h2 : srt = some "active" <;>
      by_cases h3 : srt = some "unanswered" <;>
        simp only [getQuestions, h1, h2, h3, if_true, if_false, ite_true, ite_false,
          eq_self_iff_true, reduceCtorEq, Option.some.injEq, String.reduceEq] <;>
        exact applyLimit_pairwise _ _ _ (hpin _ _)
  · intro q hq
    unfold getQuestions at hq
    have hq2 := mem_applyLimit _ _ _ hq
    rw [if_neg (by simp), if_neg (by simp), if_pos rfl] at hq2
    rw [List.mem_mergeSort, List.mem_filter] at hq2
    simpa using hq2.2

/-- Witness for C9: the concrete unanswered listing only carries the question
with zero answers. -/
theorem getQuestions_ordering_witness : sampleQOwned.answerCount = 0 :=
  (getQuestions_ordering sampleDBVote none none).2.2 sampleQOwned
    (by
      show sampleQOwned ∈
        (List.filter (fun q => q.answerCount == 0)
          (List.filter (fun q => sampleDBVote.categories.any fun c => c.id == q.categoryId)
            sampleDBVote.questions)).mergeSort (pinnedKeyLe fun q => q.createdAt)
      exact List.mem_mergeSort.mpr (by decide))

end LinuxSupport
